import Mathlib

/-!
Shallow embedding of `ansys.platform.instancemanagement` (pypim):
`service.py`, `definition.py`, `instance.py`.

Python strings are `String`; Python `Mapping`/`dict` values are association
lists with unique keys, compared extensionally as Python `dict.__eq__` does.
gRPC stubs carry an opaque identity (`StubId`); their RPC behaviour is passed
explicitly as a function, and each operation returns the list of RPC calls it
issued so that "issues exactly one RPC with payload X" is provable.
Timeouts are opaque pass-through values, modelled as `Option Nat`.
-/

namespace PyPim

/-! Python string primitives, modelled structurally over `List Char` -/

/-- Python `str.split(sep)` for a one-character separator: splits on every
occurrence, keeping empty segments; `split` of the empty string is `[""]`. -/
def pySplitList (sep : Char) : List Char → List (List Char)
  | [] => [[]]
  | c :: rest =>
    let r := pySplitList sep rest
    if c = sep then [] :: r
    else
      match r with
      | [] => [[c]]
      | h :: t => (c :: h) :: t

/-- Python `str.split(sep)` on `String`s. -/
def pySplit (sep : Char) (s : String) : List String :=
  (pySplitList sep s.data).map List.asString

/-- Python `str.startswith(p)`. -/
def pyStartsWith (s p : String) : Bool :=
  p.data.isPrefixOf s.data

/-- Python `str.isdecimal()` (restricted to its ASCII behaviour, which covers
every URI and name in this API): non-empty and every character a digit. -/
def pyIsDecimal (s : String) : Bool :=
  !s.data.isEmpty && s.data.all Char.isDigit

/-- Python `int(s)` on a string of decimal digits. -/
def pyInt (s : String) : Nat :=
  s.data.foldl (fun n c => n * 10 + (c.toNat - '0'.toNat)) 0

/-! Wire messages (PIM API v1 protobuf objects) -/

/-- Protobuf `Service` message (`uri`, `headers` map). -/
structure ServiceV1 where
  uri : String
  headers : List (String × String)
deriving DecidableEq, Repr

/-- Protobuf `Instance` message. -/
structure InstanceV1 where
  name : String
  definition_name : String
  ready : Bool
  status_message : String
  services : List (String × ServiceV1)
deriving DecidableEq, Repr

/-- Protobuf `Definition` message. -/
structure DefinitionV1 where
  name : String
  product_name : String
  product_version : String
  available_service_names : List String
deriving DecidableEq, Repr

/-- Message built by `InstanceV1(definition_name=dn)`: only `definition_name`
is set, every other field is at its protobuf default. -/
def InstanceV1.withDefinitionName (dn : String) : InstanceV1 :=
  { name := "", definition_name := dn, ready := false, status_message := "", services := [] }

/-- Protobuf `CreateInstanceRequest`. -/
structure CreateInstanceRequest where
  «instance» : InstanceV1
deriving DecidableEq, Repr

/-- Protobuf `DeleteInstanceRequest`. -/
structure DeleteInstanceRequest where
  name : String
deriving DecidableEq, Repr

/-! Domain objects -/

/-- Opaque identity of a `ProductInstanceManagerStub` reference. -/
abbrev StubId := Nat

/-- Domain `Service` object: entry point for communicating with a remote
product. -/
structure Service where
  uri : String
  headers : List (String × String)
deriving DecidableEq, Repr

/-- Dataclass `Definition`; `stub` is the `_stub` field (`compare=False`). -/
structure Definition where
  name : String
  product_name : String
  product_version : String
  available_service_names : List String
  stub : Option StubId
deriving DecidableEq, Repr

/-- Dataclass `Instance`; `stub` is the `_stub` field (`compare=False`). -/
structure Instance where
  definition_name : String
  name : String
  ready : Bool
  status_message : String
  services : List (String × Service)
  stub : Option StubId
deriving DecidableEq, Repr

/-! Equality semantics (`Service.__eq__`, dataclass `__eq__`) -/

/-- Python `dict.__eq__` on association lists with unique keys, with values
compared by `eqv`: same size, and every key of `a` is in `b` with an
`eqv`-equal value. -/
def dictEq (eqv : α → α → Bool) (a b : List (String × α)) : Bool :=
  a.length == b.length &&
    a.all fun p =>
      match b.lookup p.1 with
      | some w => eqv p.2 w
      | none => false

/-- Model of `Service.__eq__`: structural on `headers` (dict equality) and
`uri` (the source compares `obj.headers == self.headers and obj.uri == self.uri`). -/
def Service.eq (a b : Service) : Bool :=
  dictEq (fun x y => x == y) b.headers a.headers && b.uri == a.uri

/-- Dataclass `__eq__` for `Definition`: every field except `_stub`
(`compare=False`). -/
def Definition.eq (a b : Definition) : Bool :=
  a.name == b.name && a.product_name == b.product_name &&
    a.product_version == b.product_version &&
    a.available_service_names == b.available_service_names

/-- Dataclass `__eq__` for `Instance`: every field except `_stub`
(`compare=False`); `services` is a dict whose values compare via
`Service.__eq__`. -/
def Instance.eq (a b : Instance) : Bool :=
  a.definition_name == b.definition_name && a.name == b.name &&
    a.ready == b.ready && a.status_message == b.status_message &&
    dictEq Service.eq a.services b.services

/-! Channel construction (`Service._build_grpc_channel`) -/

/-- Process-wide configuration (`default_configuration()`): carries the bearer
access token used for secure channels. -/
structure Configuration where
  access_token : String
deriving DecidableEq, Repr

/-- Result of gRPC channel construction: either a secure channel to `uri` with
TLS credentials composed with access-token call credentials, or an insecure
channel to `uri`. -/
inductive Channel where
  | secure (uri : String) (accessToken : String)
  | insecure (uri : String)
deriving DecidableEq, Repr

/-- Model of `potential_port_number = self.uri.split(":")[-1]`. -/
def potential_port_number (uri : String) : String :=
  (pySplit ':' uri).getLastD ""

/-- Model of `is_secure_port = potential_port_number.isdecimal() and
int(potential_port_number) == 443`. -/
def is_secure_port (uri : String) : Bool :=
  pyIsDecimal (potential_port_number uri) && pyInt (potential_port_number uri) == 443

/-- Model of `Service._build_grpc_channel`: the channel built, paired with the
headers installed by the header-adder interceptor that wraps either channel. -/
def Service.build_grpc_channel (s : Service) (cfg : Configuration) :
    Channel × List (String × String) :=
  if is_secure_port s.uri then
    (Channel.secure s.uri cfg.access_token, s.headers)
  else
    (Channel.insecure s.uri, s.headers)

/-- Model of `Service._from_pim_v1`. -/
def Service.from_pim_v1 (service : ServiceV1) : Service :=
  { uri := service.uri, headers := service.headers }

/-! Validating translations (`Definition._from_pim_v1`, `Instance._from_pim_v1`) -/

/-- Model of `Definition._from_pim_v1`: validation failure raises `ValueError`,
modelled as `Except.error` with the source's message. -/
def Definition.from_pim_v1 (d : DefinitionV1) (stub : Option StubId) :
    Except String Definition :=
  if d.name == "" || !pyStartsWith d.name "definitions/" then
    Except.error "A definition name must have a name that starts with ``definitions/``."
  else if d.product_name == "" then
    Except.error "A definition must have a product name."
  else if d.product_version == "" then
    Except.error "A definition must have a product version."
  else if d.available_service_names.isEmpty || d.available_service_names.length == 0 then
    Except.error "A definition must have at least one service name."
  else
    Except.ok
      { name := d.name
        product_name := d.product_name
        product_version := d.product_version
        available_service_names := d.available_service_names
        stub := stub }

/-- Model of `Instance._from_pim_v1`: validation failure raises `ValueError`,
modelled as `Except.error` with the source's message. -/
def Instance.from_pim_v1 (i : InstanceV1) (stub : Option StubId) :
    Except String Instance :=
  if i.name != "" && !pyStartsWith i.name "instances/" then
    Except.error "An instance name must start with `instances/`"
  else if i.definition_name == "" || !pyStartsWith i.definition_name "definitions/" then
    Except.error "An instance must have a definition name that starts with definitions/"
  else
    Except.ok
      { name := i.name
        definition_name := i.definition_name
        status_message := i.status_message
        services := i.services.map fun p => (p.1, Service.from_pim_v1 p.2)
        ready := i.ready
        stub := stub }

/-! RPC plumbing (`Instance._create`, `Definition.create_instance`, `Instance.delete`) -/

/-- Timeouts are opaque values passed through to the transport. -/
abbrev Timeout := Option Nat

/-- Opaque transport-level gRPC failure. -/
structure GrpcError where
  code : String
deriving DecidableEq, Repr

/-- Record of a call issued on the stub, with its full request payload and
timeout. -/
inductive RpcCall where
  | create (request : CreateInstanceRequest) (timeout : Timeout)
  | delete (request : DeleteInstanceRequest) (timeout : Timeout)
deriving DecidableEq, Repr

/-- Failure of `Instance._create`: either a transport failure propagated from
the stub, or a `ValueError` from `Instance._from_pim_v1` on the response. -/
inductive PimError where
  | transport (e : GrpcError)
  | validation (msg : String)
deriving DecidableEq, Repr

/-- Model of `Instance._create`: builds
`CreateInstanceRequest(instance=InstanceV1(definition_name=...))`, invokes
`stub.CreateInstance(request, timeout=timeout)`, and translates the response
through `Instance._from_pim_v1` with the stub attached. Returns the trace of
issued RPC calls alongside the result. -/
def Instance.create (definition_name : String) (stub : Option StubId)
    (rpcCreate : CreateInstanceRequest → Timeout → Except GrpcError InstanceV1)
    (timeout : Timeout) : List RpcCall × Except PimError Instance :=
  let request : CreateInstanceRequest :=
    { «instance» := InstanceV1.withDefinitionName definition_name }
  match rpcCreate request timeout with
  | Except.error e =>
    ([RpcCall.create request timeout], Except.error (PimError.transport e))
  | Except.ok resp =>
    ([RpcCall.create request timeout],
      match Instance.from_pim_v1 resp stub with
      | Except.error m => Except.error (PimError.validation m)
      | Except.ok i => Except.ok i)

/-- Model of `Definition.create_instance`: delegates to `Instance._create`
with `definition_name=self.name` and `stub=self._stub`. -/
def Definition.create_instance (d : Definition)
    (rpcCreate : CreateInstanceRequest → Timeout → Except GrpcError InstanceV1)
    (timeout : Timeout) : List RpcCall × Except PimError Instance :=
  Instance.create d.name d.stub rpcCreate timeout

/-- Model of `Instance.delete`: builds `DeleteInstanceRequest(name=self.name)`
and invokes `stub.DeleteInstance(request, timeout=timeout)`. Returns the trace
of issued RPC calls, the transport result (propagated unchanged), and the
instance state after the call (the method body contains no assignment to
`self`, so the state after is the state before). -/
def Instance.delete (inst : Instance)
    (rpcDelete : DeleteInstanceRequest → Timeout → Except GrpcError Unit)
    (timeout : Timeout) : List RpcCall × Except GrpcError Unit × Instance :=
  let request : DeleteInstanceRequest := { name := inst.name }
  ([RpcCall.delete request timeout], rpcDelete request timeout, inst)

/-! Concrete fixtures used by witnesses and counterexamples -/

/-- Pending instance: server has not yet assigned a name. -/
def pendingInstance : Instance :=
  { definition_name := "definitions/my-def", name := "", ready := false,
    status_message := "Not yet ready", services := [], stub := some 0 }

/-- Wire `Instance` message that is not ready, with a non-empty status message
and a non-empty services map. -/
def notReadyMsg : InstanceV1 :=
  { name := "instances/my-inst", definition_name := "definitions/my-def",
    ready := false, status_message := "Loading...",
    services := [("grpc", { uri := "dns:product:50051", headers := [] })] }

/-- Valid wire `Definition` message. -/
def validDefMsg : DefinitionV1 :=
  { name := "definitions/my-def", product_name := "my_product",
    product_version := "221", available_service_names := ["grpc", "http"] }

/-- Definition fixture with an attached stub. -/
def defObjC6 : Definition :=
  { name := "definitions/my-def", product_name := "my_product",
    product_version := "221", available_service_names := ["grpc"], stub := some 7 }

/-- Wire `Instance` response used as the creation RPC result. -/
def respMsgC6 : InstanceV1 :=
  { name := "instances/my-inst", definition_name := "definitions/my-def",
    ready := true, status_message := "",
    services := [("grpc", { uri := "dns:ip.example.com:50051", headers := [] })] }

/-- Service fixture with one header. -/
def serviceW : Service :=
  { uri := "dns:ip.example.com:50051", headers := [("token", "Bearer abc")] }

/-- Instance fixture exposing one service. -/
def instanceW : Instance :=
  { definition_name := "definitions/my-def", name := "instances/my-inst",
    ready := true, status_message := "", services := [("grpc", serviceW)],
    stub := none }

/-! Helper lemmas on dict equality -/

/-- Lookup of a member pair in an association list with unique keys returns
that pair's value. -/
theorem lookup_self_of_nodup {α : Type} {l : List (String × α)}
    (nd : (l.map Prod.fst).Nodup) : ∀ p ∈ l, l.lookup p.1 = some p.2 := by
  induction l with
  | nil =>
    intro p hp
    cases hp
  | cons q l ih =>
    intro p hp
    simp only [List.map_cons, List.nodup_cons] at nd
    rcases List.mem_cons.mp hp with rfl | hmem
    · obtain ⟨k, v⟩ := p
      exact List.lookup_cons_self
    · have hne : ¬p.1 = q.1 := fun he => nd.1 (he ▸ List.mem_map_of_mem Prod.fst hmem)
      obtain ⟨k, v⟩ := q
      have hbeq : (p.1 == k) = false := beq_eq_false_iff_ne.mpr hne
      rw [List.lookup_cons, hbeq]
      exact ih nd.2 p hmem

/-- Reflexivity of `dictEq` on a dict with unique keys whose values are
`eqv`-reflexive. -/
theorem dictEq_self {α : Type} (eqv : α → α → Bool) (l : List (String × α))
    (nd : (l.map Prod.fst).Nodup) (h : ∀ p ∈ l, eqv p.2 p.2 = true) :
    dictEq eqv l l = true := by
  unfold dictEq
  simp only [Bool.and_eq_true, beq_self_eq_true, true_and, List.all_eq_true]
  intro p hp
  rw [lookup_self_of_nodup nd p hp]
  exact h p hp

/-- Two string dicts with unique keys that are `dictEq`-equal agree on every
lookup. -/
theorem dictEq_lookup_eq (a b : List (String × String))
    (nda : (a.map Prod.fst).Nodup) (ndb : (b.map Prod.fst).Nodup)
    (h : dictEq (fun x y => x == y) a b = true) :
    ∀ k, a.lookup k = b.lookup k := by
  unfold dictEq at h
  simp only [Bool.and_eq_true, beq_iff_eq, List.all_eq_true] at h
  obtain ⟨hlen, hall⟩ := h
  have hmem : ∀ p ∈ a, b.lookup p.1 = some p.2 := by
    intro p hp
    have hp' := hall p hp
    cases hb : b.lookup p.1 with
    | none =>
      rw [hb] at hp'
      simp at hp'
    | some w =>
      rw [hb] at hp'
      simp only [beq_iff_eq] at hp'
      rw [hp']
  have hsub : ∀ k, k ∈ a.map Prod.fst → k ∈ b.map Prod.fst := by
    intro k hk
    obtain ⟨p, hp, rfl⟩ := List.mem_map.mp hk
    have hsome : (b.lookup p.1).isSome := by
      rw [hmem p hp]
      rfl
    rw [List.lookup_isSome_iff] at hsome
    obtain ⟨q, hq, he⟩ := hsome
    rw [List.mem_map]
    exact ⟨q, hq, (beq_iff_eq.mp he).symm⟩
  have hset : (a.map Prod.fst).toFinset = (b.map Prod.fst).toFinset := by
    apply Finset.eq_of_subset_of_card_le
    · intro k hk
      exact List.mem_toFinset.mpr (hsub k (List.mem_toFinset.mp hk))
    · rw [List.toFinset_card_of_nodup ndb, List.toFinset_card_of_nodup nda]
      simp [hlen]
  intro k
  by_cases hka : k ∈ a.map Prod.fst
  · obtain ⟨p, hp, rfl⟩ := List.mem_map.mp hka
    rw [lookup_self_of_nodup nda p hp, hmem p hp]
  · have hkb : k ∉ b.map Prod.fst := by
      intro hkb
      exact hka (List.mem_toFinset.mp (hset ▸ List.mem_toFinset.mpr hkb))
    have ha : a.lookup k = none := by
      rw [List.lookup_eq_none_iff]
      intro p hp
      exact bne_iff_ne.mpr fun he => hka (he ▸ List.mem_map_of_mem Prod.fst hp)
    have hbn : b.lookup k = none := by
      rw [List.lookup_eq_none_iff]
      intro p hp
      exact bne_iff_ne.mpr fun he => hkb (he ▸ List.mem_map_of_mem Prod.fst hp)
    rw [ha, hbn]

/-! Claim theorems -/

/-- Claim C1: `_build_grpc_channel` selects the security mode by splitting
`uri` on `:` and taking the last segment; it builds a secure channel (with the
configuration's access token) exactly when that token is purely numeric and
numerically equal to 443, and an insecure channel otherwise. In particular
`"product.example.com:443"` yields secure construction and
`"product.example.com:50051"` and `"product.example.com:abc"` yield insecure
construction. -/
theorem claim_C1 :
    (∀ (s : Service) (cfg : Configuration),
        ((Service.build_grpc_channel s cfg).1 = Channel.secure s.uri cfg.access_token ↔
          (pyIsDecimal (potential_port_number s.uri) = true ∧
            pyInt (potential_port_number s.uri) = 443)) ∧
        ((Service.build_grpc_channel s cfg).1 = Channel.insecure s.uri ↔
          ¬(pyIsDecimal (potential_port_number s.uri) = true ∧
            pyInt (potential_port_number s.uri) = 443))) ∧
    (∀ (cfg : Configuration) (hs : List (String × String)),
        (Service.build_grpc_channel { uri := "product.example.com:443", headers := hs } cfg).1 =
          Channel.secure "product.example.com:443" cfg.access_token) ∧
    (∀ (cfg : Configuration) (hs : List (String × String)),
        (Service.build_grpc_channel { uri := "product.example.com:50051", headers := hs } cfg).1 =
          Channel.insecure "product.example.com:50051") ∧
    (∀ (cfg : Configuration) (hs : List (String × String)),
        (Service.build_grpc_channel { uri := "product.example.com:abc", headers := hs } cfg).1 =
          Channel.insecure "product.example.com:abc") := by
  refine ⟨?_, ?_, ?_, ?_⟩
  · intro s cfg
    by_cases h : is_secure_port s.uri
    · have h' := h
      unfold is_secure_port at h'
      simp only [Bool.and_eq_true, beq_iff_eq] at h'
      simp [Service.build_grpc_channel, h, h']
    · have h' := h
      unfold is_secure_port at h'
      simp only [Bool.and_eq_true, beq_iff_eq, not_and] at h'
      simp only [Bool.not_eq_true] at h
      constructor
      · simp [Service.build_grpc_channel, h]
        intro h1 h2
        exact absurd (h' h1) (by simp [h2])
      · simp [Service.build_grpc_channel, h]
        intro h1 h2
        exact absurd (h' h1) (by simp [h2])
  · intro cfg hs
    have h : is_secure_port "product.example.com:443" = true := by decide
    simp [Service.build_grpc_channel, h]
  · intro cfg hs
    have h : is_secure_port "product.example.com:50051" = false := by decide
    simp [Service.build_grpc_channel, h]
  · intro cfg hs
    have h : is_secure_port "product.example.com:abc" = false := by decide
    simp [Service.build_grpc_channel, h]

/-- Claim C2 counterexample: on a wire message with `ready=false` and
non-empty `status_message` whose services field is non-empty, `from_wire`
returns an `Instance` whose services mapping is NOT empty — it carries over
the message's services verbatim, refuting the claim that services is emptied
whenever the instance is not ready. -/
theorem claim_C2_counterexample :
    notReadyMsg.ready = false ∧ notReadyMsg.status_message ≠ "" ∧
    Instance.from_pim_v1 notReadyMsg none =
      Except.ok
        { definition_name := "definitions/my-def", name := "instances/my-inst",
          ready := false, status_message := "Loading...",
          services := [("grpc", { uri := "dns:product:50051", headers := [] })],
          stub := none } ∧
    ([("grpc", ({ uri := "dns:product:50051", headers := [] } : Service))] :
        List (String × Service)) ≠ [] :=
  ⟨rfl, by decide, rfl, by decide⟩

/-- Claim C2 (amended): for every wire `Instance` message with `ready=false`
and non-empty `status_message`, `from_wire` passes the services field through
literally (element-wise translation), rather than emptying it; the resulting
services mapping is empty exactly when the message's services field is. -/
theorem claim_C2 (m : InstanceV1) (stub : Option StubId) (i : Instance)
    (_hready : m.ready = false) (_hmsg : m.status_message ≠ "")
    (h : Instance.from_pim_v1 m stub = Except.ok i) :
    i.services = m.services.map fun p => (p.1, Service.from_pim_v1 p.2) := by
  unfold Instance.from_pim_v1 at h
  split at h
  · exact absurd h (by simp)
  · split at h
    · exact absurd h (by simp)
    · cases h
      rfl

/-- Claim C2 witness: the amended theorem applied at a concrete not-ready
message with a non-empty services field. -/
theorem claim_C2_witness :
    (Instance.mk "definitions/my-def" "instances/my-inst" false "Loading..."
        [("grpc", { uri := "dns:product:50051", headers := [] })] none).services =
      notReadyMsg.services.map (fun p => (p.1, Service.from_pim_v1 p.2)) :=
  claim_C2 notReadyMsg none _ (by decide) (by decide) rfl

/-- Claim C3: `Definition` `from_wire` fails exactly when the name is empty or
lacks the `definitions/` prefix, or `product_name` is empty, or
`product_version` is empty, or the service-name list is empty; on every other
message it succeeds (and, the result being an `Except`, it never returns a
partially constructed `Definition`). -/
theorem claim_C3 (d : DefinitionV1) (stub : Option StubId) :
    ((∃ e, Definition.from_pim_v1 d stub = Except.error e) ↔
      (d.name = "" ∨ ¬pyStartsWith d.name "definitions/" = true ∨
        d.product_name = "" ∨ d.product_version = "" ∨
        d.available_service_names = [])) ∧
    ((∃ r, Definition.from_pim_v1 d stub = Except.ok r) ↔
      ¬(d.name = "" ∨ ¬pyStartsWith d.name "definitions/" = true ∨
        d.product_name = "" ∨ d.product_version = "" ∨
        d.available_service_names = [])) := by
  have hb : ¬(pyStartsWith d.name "definitions/" = true ∧
      pyStartsWith d.name "definitions/" = false) := by
    rintro ⟨hx, hy⟩
    rw [hx] at hy
    cases hy
  unfold Definition.from_pim_v1
  split
  next h =>
    simp at h
    constructor <;> simp <;> tauto
  next h1 =>
    simp at h1
    split
    next h =>
      simp at h
      constructor <;> simp <;> tauto
    next h2 =>
      simp at h2
      split
      next h =>
        simp at h
        constructor <;> simp <;> tauto
      next h3 =>
        simp at h3
        split
        next h =>
          simp at h
          constructor <;> simp <;> tauto
        next h4 =>
          simp at h4
          constructor <;> simp <;> tauto

/-- Claim C4: `Instance` `from_wire` fails exactly when the name is non-empty
and lacks the `instances/` prefix, or `definition_name` is empty or lacks the
`definitions/` prefix; in particular an empty instance name is permitted and
accepted. -/
theorem claim_C4 (m : InstanceV1) (stub : Option StubId) :
    ((∃ e, Instance.from_pim_v1 m stub = Except.error e) ↔
      ((¬m.name = "" ∧ ¬pyStartsWith m.name "instances/" = true) ∨
        m.definition_name = "" ∨
        ¬pyStartsWith m.definition_name "definitions/" = true)) ∧
    ((∃ i, Instance.from_pim_v1 m stub = Except.ok i) ↔
      ¬((¬m.name = "" ∧ ¬pyStartsWith m.name "instances/" = true) ∨
        m.definition_name = "" ∨
        ¬pyStartsWith m.definition_name "definitions/" = true)) := by
  have hb1 : ¬(pyStartsWith m.name "instances/" = true ∧
      pyStartsWith m.name "instances/" = false) := by
    rintro ⟨hx, hy⟩
    rw [hx] at hy
    cases hy
  have hb2 : ¬(pyStartsWith m.definition_name "definitions/" = true ∧
      pyStartsWith m.definition_name "definitions/" = false) := by
    rintro ⟨hx, hy⟩
    rw [hx] at hy
    cases hy
  unfold Instance.from_pim_v1
  split
  next h =>
    simp at h
    constructor <;> simp <;> tauto
  next h1 =>
    simp at h1
    split
    next h =>
      simp at h
      constructor <;> simp <;> tauto
    next h2 =>
      simp at h2
      constructor <;> simp <;> tauto

/-- Claim C5: on every valid wire `Definition` message, `from_wire`
round-trips the scalar fields `name`, `product_name`, `product_version`
unchanged and preserves the contents of `available_service_names` (it is in
fact preserved exactly, hence also order-insensitively). -/
theorem claim_C5 (m : DefinitionV1) (stub : Option StubId) (d : Definition)
    (h : Definition.from_pim_v1 m stub = Except.ok d) :
    d.name = m.name ∧ d.product_name = m.product_name ∧
    d.product_version = m.product_version ∧
    d.available_service_names = m.available_service_names ∧
    (∀ s, s ∈ d.available_service_names ↔ s ∈ m.available_service_names) := by
  unfold Definition.from_pim_v1 at h
  split at h
  · exact absurd h (by simp)
  · split at h
    · exact absurd h (by simp)
    · split at h
      · exact absurd h (by simp)
      · split at h
        · exact absurd h (by simp)
        · cases h
          exact ⟨rfl, rfl, rfl, rfl, fun s => Iff.rfl⟩

/-- Claim C5 witness: the round-trip theorem applied at a concrete valid wire
message. -/
theorem claim_C5_witness :
    (Definition.mk "definitions/my-def" "my_product" "221" ["grpc", "http"] none).name =
      validDefMsg.name :=
  (claim_C5 validDefMsg none _ rfl).1

/-- Claim C6: `create_instance` issues exactly one creation RPC whose request
payload carries only `definition_name` equal to the Definition's own name
(every other field at its protobuf default), passing the given timeout, and
its result is exactly the validating translation (`Instance` `from_wire`) of
the RPC's response with the Definition's stub attached — transport errors and
validation errors propagate as such. -/
theorem claim_C6 (d : Definition)
    (rpcCreate : CreateInstanceRequest → Timeout → Except GrpcError InstanceV1)
    (t : Timeout) :
    (Definition.create_instance d rpcCreate t).1 =
      [RpcCall.create
        { «instance» :=
            { name := "", definition_name := d.name, ready := false,
              status_message := "", services := [] } } t] ∧
    (∀ e, rpcCreate { «instance» := InstanceV1.withDefinitionName d.name } t = Except.error e →
      (Definition.create_instance d rpcCreate t).2 = Except.error (PimError.transport e)) ∧
    (∀ resp, rpcCreate { «instance» := InstanceV1.withDefinitionName d.name } t = Except.ok resp →
      ∀ msg, Instance.from_pim_v1 resp d.stub = Except.error msg →
        (Definition.create_instance d rpcCreate t).2 = Except.error (PimError.validation msg)) ∧
    (∀ resp, rpcCreate { «instance» := InstanceV1.withDefinitionName d.name } t = Except.ok resp →
      ∀ i, Instance.from_pim_v1 resp d.stub = Except.ok i →
        (Definition.create_instance d rpcCreate t).2 = Except.ok i) := by
  unfold Definition.create_instance Instance.create
  refine ⟨?_, ?_, ?_, ?_⟩
  · cases hrpc : rpcCreate { «instance» := InstanceV1.withDefinitionName d.name } t <;>
      simp only [InstanceV1.withDefinitionName] at hrpc <;>
      simp [InstanceV1.withDefinitionName, hrpc]
  · intro e he
    simp [he]
  · intro resp hresp msg hmsg
    simp [hresp, hmsg]
  · intro resp hresp i hi
    simp [hresp, hi]

/-- Claim C6 witness: the theorem applied at a concrete definition, a stubbed
creation RPC returning a concrete response, and a concrete timeout. -/
theorem claim_C6_witness :
    (Definition.create_instance defObjC6 (fun _ _ => Except.ok respMsgC6) (some 5)).2 =
      Except.ok
        { definition_name := "definitions/my-def", name := "instances/my-inst",
          ready := true, status_message := "",
          services := [("grpc", { uri := "dns:ip.example.com:50051", headers := [] })],
          stub := some 7 } :=
  (claim_C6 defObjC6 (fun _ _ => Except.ok respMsgC6) (some 5)).2.2.2 respMsgC6 rfl _ rfl

/-- Claim C7: `delete` issues exactly one deletion RPC keyed by the instance's
own name with the given timeout, its result is exactly the transport's result
(success carries no value; any transport failure propagates unchanged), and it
mutates none of the instance's fields. -/
theorem claim_C7 (inst : Instance)
    (rpcDelete : DeleteInstanceRequest → Timeout → Except GrpcError Unit) (t : Timeout) :
    (Instance.delete inst rpcDelete t).1 = [RpcCall.delete { name := inst.name } t] ∧
    (Instance.delete inst rpcDelete t).2.1 = rpcDelete { name := inst.name } t ∧
    (Instance.delete inst rpcDelete t).2.2.definition_name = inst.definition_name ∧
    (Instance.delete inst rpcDelete t).2.2.name = inst.name ∧
    (Instance.delete inst rpcDelete t).2.2.ready = inst.ready ∧
    (Instance.delete inst rpcDelete t).2.2.status_message = inst.status_message ∧
    (Instance.delete inst rpcDelete t).2.2.services = inst.services ∧
    (Instance.delete inst rpcDelete t).2.2.stub = inst.stub ∧
    (Instance.delete inst rpcDelete t).2.2 = inst :=
  ⟨rfl, rfl, rfl, rfl, rfl, rfl, rfl, rfl, rfl⟩

/-- Claim C8: equality of the domain value objects is purely structural on
payload fields: two `Service`s with identical `uri` and `headers` compare
equal; equal `Service`s agree on `uri` and on every header lookup (so
differing in either field makes them unequal); and for `Definition` and
`Instance` the embedded stub reference never influences equality — two
objects differing only in stub compare equal. -/
theorem claim_C8 :
    (∀ a b : Service, a.uri = b.uri → a.headers = b.headers →
        (a.headers.map Prod.fst).Nodup → Service.eq a b = true) ∧
    (∀ a b : Service, Service.eq a b = true → a.uri = b.uri) ∧
    (∀ a b : Service, Service.eq a b = true →
        (a.headers.map Prod.fst).Nodup → (b.headers.map Prod.fst).Nodup →
        ∀ k, a.headers.lookup k = b.headers.lookup k) ∧
    (∀ (d : Definition) (s1 s2 : Option StubId),
        Definition.eq { d with stub := s1 } { d with stub := s2 } = true) ∧
    (∀ (i : Instance) (s1 s2 : Option StubId),
        (i.services.map Prod.fst).Nodup →
        (∀ p ∈ i.services, (p.2.headers.map Prod.fst).Nodup) →
        Instance.eq { i with stub := s1 } { i with stub := s2 } = true) := by
  refine ⟨?_, ?_, ?_, ?_, ?_⟩
  · intro a b hu hh nd
    unfold Service.eq
    rw [← hh, ← hu]
    have hd : dictEq (fun x y => x == y) a.headers a.headers = true := by
      apply dictEq_self _ _ nd
      intro p hp
      simp
    simp [hd]
  · intro a b h
    unfold Service.eq at h
    simp only [Bool.and_eq_true, beq_iff_eq] at h
    exact h.2.symm
  · intro a b h nda ndb hk
    unfold Service.eq at h
    simp only [Bool.and_eq_true] at h
    exact (dictEq_lookup_eq b.headers a.headers ndb nda h.1 hk).symm
  · intro d s1 s2
    unfold Definition.eq
    simp
  · intro i s1 s2 ndserv ndheaders
    unfold Instance.eq
    have hself : dictEq Service.eq i.services i.services = true := by
      apply dictEq_self _ _ ndserv
      intro p hp
      unfold Service.eq
      have h1 : dictEq (fun x y => x == y) p.2.headers p.2.headers = true := by
        apply dictEq_self _ _ (ndheaders p hp)
        intro q hq
        simp
      simp [h1]
    simp [hself]

/-- Claim C8 witness: two instances differing only in their stub compare
equal, at a concrete instance exposing one service with one header. -/
theorem claim_C8_witness :
    Instance.eq { instanceW with stub := some 1 } { instanceW with stub := some 2 } = true :=
  claim_C8.2.2.2.2 instanceW (some 1) (some 2) (by decide) (by decide)

/-- Claim C9: `delete` performs no local precondition check — even for a
pending instance whose name is the empty string it unconditionally issues one
deletion RPC keyed by that empty name. -/
theorem claim_C9 :
    ∀ (rpcDelete : DeleteInstanceRequest → Timeout → Except GrpcError Unit) (t : Timeout),
      (Instance.delete pendingInstance rpcDelete t).1 = [RpcCall.delete { name := "" } t] := by
  intro rpc t
  rfl

/-- Claim C10: for the URI `"product.example.com:0443"`, whose trailing
colon-segment `"0443"` is not the literal string `"443"` but parses to the
integer 443, `_build_grpc_channel` selects secure construction — the security
decision compares the integer value of the token to 443, not the token
string. -/
theorem claim_C10 :
    (∀ (cfg : Configuration) (hs : List (String × String)),
        (Service.build_grpc_channel { uri := "product.example.com:0443", headers := hs } cfg).1 =
          Channel.secure "product.example.com:0443" cfg.access_token) ∧
    potential_port_number "product.example.com:0443" = "0443" ∧
    "0443" ≠ "443" ∧ pyIsDecimal "0443" = true ∧ pyInt "0443" = 443 := by
  refine ⟨?_, by decide, by decide, by decide, by decide⟩
  intro cfg hs
  have h : is_secure_port "product.example.com:0443" = true := by decide
  simp [Service.build_grpc_channel, h]

end PyPim
